import Mathlib

/-!
# Verification of the FRN Qso session (`QsoFrn.cpp`)

Shallow embedding of the session object implemented in
`src/svxlink/modules/frn/QsoFrn.cpp`.  The session bridges a float-sample
audio stream to the FRN TCP protocol: connection lifecycle with bounded
reconnect, login handshake, keep-alive, uplink sample buffering with GSM
(WAV49) framing, and inbound response dispatch.

Modelling conventions:
* The mutable C++ object is a record `Qso`; every member function becomes a
  pure function `Qso → ... → Qso × List Event` returning the new state and
  the externally observable actions (transport writes, connect attempts,
  sink writes, flush signals) in order of occurrence.
* Float samples are modelled as exact rationals; the float→int16 cast
  truncates toward zero exactly as the C `static_cast` does on in-range
  values.
* The GSM codec (`gsm_encode` / `gsm_decode`) is an external black box
  (libgsm); a payload-write event records the PCM block handed to the
  encoder and the byte count the code writes, which the code computes
  independently of the byte values the codec produced.
* `cout`/`cerr` logging has no observable effect and is dropped.
-/

namespace QsoFrn

/-- Modelled from the spec: number of GSM-packed units per network audio
packet (`FRAME_COUNT`), declared in the missing header `QsoFrn.h`.  The
spec fixes only the relations `BUFFER_SIZE = FRAME_COUNT × PCM_FRAME_SIZE`
and `FRN_AUDIO_PACKET_SIZE = FRAME_COUNT × GSM_FRAME_SIZE`; the concrete
value is taken as 5 and no claim depends on it. -/
def FRAME_COUNT : Nat := 5

/-- Modelled from the spec: PCM samples per packed unit, declared in the
missing header.  The source encodes two half-blocks per unit
(`src + PCM_FRAME_SIZE / 2`), each a 160-sample GSM frame, giving 320. -/
def PCM_FRAME_SIZE : Nat := 320

/-- Modelled from the spec: bytes per packed unit, declared in the missing
header.  The source writes the two WAV49 sub-frames at offsets 0 and 32 and
reads them at offsets 0 and 33 (sizes 32+33 = 33+32 = 65). -/
def GSM_FRAME_SIZE : Nat := 65

/-- Embeds `BUFFER_SIZE = FRAME_COUNT * PCM_FRAME_SIZE` (spec §3, UplinkBuffer). -/
def BUFFER_SIZE : Nat := FRAME_COUNT * PCM_FRAME_SIZE

/-- Embeds `FRN_AUDIO_PACKET_SIZE = FRAME_COUNT * GSM_FRAME_SIZE` (spec §4.6). -/
def FRN_AUDIO_PACKET_SIZE : Nat := FRAME_COUNT * GSM_FRAME_SIZE

/-- Modelled from the spec: the fixed retry ceiling
(`MAX_CONNECT_RETRY_CNT`), declared in the missing header.  The concrete
value is taken as 5; the reconnect-policy theorems are proved for an
arbitrary run length, so nothing depends on the value. -/
def MAX_CONNECT_RETRY_CNT : Nat := 5

/-- Session states (`QsoFrn::State`). -/
inductive State where
  | disconnected
  | connecting
  | connected
  | loggingIn
  | loggingIn2
  | loggedIn
  | error
  deriving DecidableEq, Repr

/-- Control-request tokens (`QsoFrn::Request`). -/
inductive Request where
  | RQ_RX0
  | RQ_TX0
  | RQ_TX1
  | RQ_P
  deriving DecidableEq, Repr

/-- Inbound response-type codes (`QsoFrn::Response`).  The numeric code
values live in the missing header; messages carry the decoded tag.
`DT_OTHER` stands for any byte that matches no known code. -/
inductive Response where
  | DT_IDLE
  | DT_DO_TX
  | DT_VOICE_BUFFER
  | DT_CLIENT_LIST
  | DT_TEXT_MESSAGE
  | DT_NET_NAMES
  | DT_ADMIN_LIST
  | DT_ACCESS_LIST
  | DT_BLOCK_LIST
  | DT_MUTE_LIST
  | DT_ACCESS_MODE
  | DT_OTHER
  deriving DecidableEq, Repr

/-- Transport disconnect reasons (`Async::TcpConnection::DisconnectReason`). -/
inductive DisconnectReason where
  | DR_HOST_NOT_FOUND
  | DR_REMOTE_DISCONNECTED
  | DR_SYSTEM_ERROR
  | DR_RECV_BUFFER_OVERFLOW
  | DR_ORDERED_DISCONNECT
  | DR_UNKNOWN
  deriving DecidableEq, Repr

/-- Externally observable actions of the session, in program order. -/
inductive Event where
  /-- Embeds `sendRequest`: control-token write (emitted only while the transport
  is connected). -/
  | reqWrite (rq : Request)
  /-- Embeds `sendVoiceData`: payload write; records the PCM block handed to the
  GSM encoder and the byte count written (`nbytes`). -/
  | payloadWrite (pcm : List Int) (nbytes : Nat)
  /-- Embeds `login`: the composite login message write. -/
  | loginWrite (msg : String)
  /-- Embeds `tcp_client->connect(...)`. -/
  | connectAttempt
  /-- Embeds `tcp_client->disconnect()`. -/
  | tcpDisconnect
  /-- Embeds `sinkWriteSamples(_, n)`: one decoded PCM block of `n` samples
  forwarded downstream (values come from the external codec). -/
  | sinkWrite (n : Nat)
  /-- Embeds `sourceResumeOutput()`. -/
  | sourceResume
  /-- Embeds `sourceAllSamplesFlushed()`. -/
  | allFlushed
  deriving DecidableEq, Repr

/-- The session object (`QsoFrn`).  `send_buffer` holds the filled prefix
of the C array, so `send_buffer.length` is `send_buffer_cnt`.  The
two `*_enabled` booleans are the `setEnable` states of the timers, `tcp_connected`
is `tcp_client->isConnected()`, and the `opt_*` strings are the identity
fields loaded at construction. -/
structure Qso where
  state : State
  connect_retry_cnt : Nat
  send_buffer : List Int
  is_sending_voice : Bool
  is_receiving_voice : Bool
  keep_alive_enabled : Bool
  con_timeout_enabled : Bool
  tcp_connected : Bool
  opt_server : String
  opt_port : String
  opt_email_address : String
  opt_dyn_password : String
  opt_callsign_and_user : String
  opt_client_type : String
  opt_band_and_channel : String
  opt_description : String
  opt_country : String
  opt_city_city_part : String
  opt_net : String
  opt_version : String
  deriving DecidableEq, Repr

/-- An inbound transport message as seen by `onDataReceived`: the decoded
response code of its first byte and its total byte length. -/
structure InMsg where
  cmd : Response
  len : Nat
  deriving DecidableEq, Repr

/-- Embeds `QsoFrn::sendRequest`: writes the token (newline-terminated) only when
the transport is connected; otherwise only logs. -/
def sendRequest (q : Qso) (rq : Request) : Qso × List Event :=
  (q, if q.tcp_connected then [Event.reqWrite rq] else [])

/-- Embeds `QsoFrn::connect`: enter `Connecting` and issue a transport connect. -/
def connect (q : Qso) : Qso × List Event :=
  ({ q with state := State.connecting }, [Event.connectAttempt])

/-- Embeds `QsoFrn::disconnect`: set `Disconnected`, disable both timers, and
close the transport only if it is connected. -/
def disconnect (q : Qso) : Qso × List Event :=
  let q1 := { q with state := State.disconnected,
                     keep_alive_enabled := false,
                     con_timeout_enabled := false }
  if q1.tcp_connected then
    ({ q1 with tcp_connected := false }, [Event.tcpDisconnect])
  else
    (q1, [])

/-- Embeds `QsoFrn::reconnect`: `if (connect_retry_cnt++ < MAX_CONNECT_RETRY_CNT)`
— the counter is compared before the increment and incremented on both
branches; below the ceiling it reconnects, at the ceiling it enters
`Error`. -/
def reconnect (q : Qso) : Qso × List Event :=
  if q.connect_retry_cnt < MAX_CONNECT_RETRY_CNT then
    connect { q with connect_retry_cnt := q.connect_retry_cnt + 1 }
  else
    ({ q with connect_retry_cnt := q.connect_retry_cnt + 1,
              state := State.error }, [])

/-- Embeds `QsoFrn::onDisconnected`: sets `Disconnected`, disables both timers
(the transport is down), then dispatches on the reason: terminal reasons
go to `Error`, transient ones invoke the reconnect policy, an ordered
disconnect stays `Disconnected`. -/
def onDisconnected (q : Qso) (reason : DisconnectReason) : Qso × List Event :=
  let q1 := { q with state := State.disconnected,
                     keep_alive_enabled := false,
                     con_timeout_enabled := false,
                     tcp_connected := false }
  match reason with
  | DisconnectReason.DR_HOST_NOT_FOUND => ({ q1 with state := State.error }, [])
  | DisconnectReason.DR_REMOTE_DISCONNECTED => reconnect q1
  | DisconnectReason.DR_SYSTEM_ERROR => reconnect q1
  | DisconnectReason.DR_RECV_BUFFER_OVERFLOW => ({ q1 with state := State.error }, [])
  | DisconnectReason.DR_ORDERED_DISCONNECT => (q1, [])
  | DisconnectReason.DR_UNKNOWN => ({ q1 with state := State.error }, [])

/-- Embeds `QsoFrn::squelchOpen`: sends the "stop transmitting" token only when
the gate opens. -/
def squelchOpen (q : Qso) (is_open : Bool) : Qso × List Event :=
  if is_open then sendRequest q Request.RQ_TX0 else (q, [])

/-- Transient disconnect reasons: the two that invoke the reconnect policy. -/
def isTransient : DisconnectReason → Bool
  | DisconnectReason.DR_REMOTE_DISCONNECTED => true
  | DisconnectReason.DR_SYSTEM_ERROR => true
  | _ => false

/-- A run of consecutive transport-disconnect callbacks with the given
reasons (no intervening `onConnected`), accumulating the events. -/
def runDisconnects : List DisconnectReason → Qso → Qso × List Event
  | [], q => (q, [])
  | r :: rs, q =>
    let p1 := onDisconnected q r
    let p2 := runDisconnects rs p1.1
    (p2.1, p1.2 ++ p2.2)

/-- The float→int16 sample conversion inside `QsoFrn::writeSamples`:
`sample > 1` clamps to `32767`, `sample < -1` clamps to `-32767`, otherwise
`static_cast<int16_t>(32767.0 * sample)`, which truncates toward zero.
Floats are modelled as exact rationals. -/
def sampleToPcm (x : ℚ) : Int :=
  if 1 < x then 32767
  else if x < -1 then -32767
  else if 0 ≤ 32767 * x then ⌊(32767 : ℚ) * x⌋ else ⌈(32767 : ℚ) * x⌉

/-- Embeds `QsoFrn::sendVoiceData`: encodes the full buffer block by block through
the external GSM codec (accumulating `nbytes += GSM_FRAME_SIZE` per block),
sends the "start transmitting" token, writes the payload, and resets the
fill count to zero.  The payload event records the PCM fed to the encoder
and the accumulated byte count. -/
def sendVoiceData (q : Qso) : Qso × List Event :=
  let nbytes := (List.range FRAME_COUNT).foldl (fun n _ => n + GSM_FRAME_SIZE) 0
  let evReq := if q.tcp_connected then [Event.reqWrite Request.RQ_TX1] else []
  ({ q with send_buffer := [] },
   evReq ++ [Event.payloadWrite q.send_buffer nbytes])

/-- The `while (samples_read < count)` loop of `QsoFrn::writeSamples`:
`rem` is the not-yet-consumed suffix of the submitted samples and `acc` is
`samples_read`.  Each pass consumes
`read_cnt = min (BUFFER_SIZE - send_buffer_cnt) (count - samples_read)`
samples into the buffer; on a full buffer it either sends the voice data
(authorized) or breaks (not authorized).  The `read_cnt = 0` early return
is unreachable while `send_buffer_cnt ≤ BUFFER_SIZE` holds (the C loop
does not terminate in that impossible state). -/
def writeSamplesLoop (q : Qso) (rem : List ℚ) (acc : Nat) :
    Qso × List Event × Nat :=
  if rem = [] then (q, [], acc)
  else
    let read_cnt := min (BUFFER_SIZE - q.send_buffer.length) rem.length
    let q1 := { q with
      send_buffer := q.send_buffer ++ (rem.take read_cnt).map sampleToPcm }
    let rem1 := rem.drop read_cnt
    let acc1 := acc + read_cnt
    if q1.send_buffer.length = BUFFER_SIZE then
      if q1.is_sending_voice then
        let p1 := sendVoiceData q1
        let p2 := writeSamplesLoop p1.1 rem1 acc1
        (p2.1, p1.2 ++ p2.2.1, p2.2.2)
      else
        (q1, [], acc1)
    else if read_cnt = 0 then (q1, [], acc1)
    else
      writeSamplesLoop q1 rem1 acc1
termination_by (rem.length, q.send_buffer.length)
decreasing_by
  · simp only [sendVoiceData, Prod.lex_iff, List.length_drop, List.length_nil]
    have hrem : 0 < rem.length := List.length_pos.mpr (by assumption)
    have hB : 0 < BUFFER_SIZE := by decide
    omega
  · simp only [Prod.lex_iff, List.length_drop]
    have hrem : 0 < rem.length := List.length_pos.mpr (by assumption)
    omega

/-- Embeds `QsoFrn::writeSamples`: in any state other than `LoggedIn` the samples
are discarded and `count` is reported accepted; while `LoggedIn` the loop
runs.  The submitted samples are the list `samples` (so `count` is
`samples.length`); the result is (new state, events, `samples_read`). -/
def writeSamples (q : Qso) (samples : List ℚ) : Qso × List Event × Nat :=
  if q.state ≠ State.loggedIn then (q, [], samples.length)
  else writeSamplesLoop q samples 0

/-- Embeds `QsoFrn::flushSamples`: while `LoggedIn` with a non-empty buffer,
zero-pad to full capacity, send the voice data, send the "stop
transmitting" token and clear the transmitting flag; in every case signal
`sourceAllSamplesFlushed` afterwards. -/
def flushSamples (q : Qso) : Qso × List Event :=
  if q.state = State.loggedIn ∧ 0 < q.send_buffer.length then
    let q1 := { q with send_buffer :=
      q.send_buffer ++ List.replicate (BUFFER_SIZE - q.send_buffer.length) 0 }
    let p2 := sendVoiceData q1
    let p3 := sendRequest p2.1 Request.RQ_TX0
    ({ p3.1 with is_sending_voice := false },
     p2.2 ++ p3.2 ++ [Event.allFlushed])
  else
    (q, [Event.allFlushed])

/-- The composite login message built by `QsoFrn::login`: every identity
field as a tagged segment in fixed order, newline-terminated. -/
def loginMsg (q : Qso) : String :=
  "CT:" ++
  "<VX>" ++ q.opt_version ++ "</VX>" ++
  "<EA>" ++ q.opt_email_address ++ "</EA>" ++
  "<PW>" ++ q.opt_dyn_password ++ "</PW>" ++
  "<ON>" ++ q.opt_callsign_and_user ++ "</ON>" ++
  "<CL>" ++ q.opt_client_type ++ "</CL>" ++
  "<BC>" ++ q.opt_band_and_channel ++ "</BC>" ++
  "<DS>" ++ q.opt_description ++ "</DS>" ++
  "<NN>" ++ q.opt_country ++ "</NN>" ++
  "<CT>" ++ q.opt_city_city_part ++ "</CT>" ++
  "<NT>" ++ q.opt_net ++ "</NT>" ++
  "\n"

/-- Embeds `QsoFrn::login`: enter `LoggingIn` and write the composite login
message once. -/
def login (q : Qso) : Qso × List Event :=
  ({ q with state := State.loggingIn }, [Event.loginWrite (loginMsg q)])

/-- Embeds `QsoFrn::onConnected`: the transport connected — enter `Connected`,
reset the failure counter, arm the inactivity watchdog, and log in. -/
def onConnected (q : Qso) : Qso × List Event :=
  login { q with state := State.connected,
                 connect_retry_cnt := 0,
                 con_timeout_enabled := true,
                 tcp_connected := true }

/-- Embeds `QsoFrn::handleAudioData`: a message of any total length other than
`FRN_AUDIO_PACKET_SIZE + 3` is dropped; a valid one is decoded block by
block through the external GSM codec, each decoded `PCM_FRAME_SIZE`-sample
block forwarded downstream immediately. -/
def handleAudioData (q : Qso) (len : Nat) : Qso × List Event :=
  if len ≠ FRN_AUDIO_PACKET_SIZE + 3 then (q, [])
  else (q, List.replicate FRAME_COUNT (Event.sinkWrite PCM_FRAME_SIZE))

/-- Embeds `QsoFrn::handleResponse`: dispatch on the response code while
`LoggedIn`.  Informational list/broadcast codes and unknown codes are only
logged. -/
def handleResponse (q : Qso) (msg : InMsg) : Qso × List Event :=
  match msg.cmd with
  | Response.DT_IDLE => (q, [])
  | Response.DT_DO_TX =>
      ({ q with is_sending_voice := true }, [Event.sourceResume])
  | Response.DT_VOICE_BUFFER =>
      handleAudioData { q with is_receiving_voice := true } msg.len
  | _ => (q, [])

/-- Embeds `QsoFrn::onDataReceived`: every inbound chunk resets the inactivity
watchdog (no effect on its enable flag), then dispatches on the session
state; the whole length is always consumed (returned).  Any first message
while `LoggingIn` advances to `LoggingIn2`; any message while `LoggingIn2`
advances to `LoggedIn`, arms the keep-alive timer and sends the
"receive-ready" token. -/
def onDataReceived (q : Qso) (msg : InMsg) : Qso × List Event × Nat :=
  match q.state with
  | State.loggingIn =>
      ({ q with state := State.loggingIn2 }, [], msg.len)
  | State.loggingIn2 =>
      let p := sendRequest { q with state := State.loggedIn,
                                    keep_alive_enabled := true }
                           Request.RQ_RX0
      (p.1, p.2, msg.len)
  | State.loggedIn =>
      let p := handleResponse q msg
      (p.1, p.2, msg.len)
  | _ => (q, [], msg.len)

/-- Embeds `QsoFrn::onKeepaliveTimeout`: send the ping token if connected. -/
def onKeepaliveTimeout (q : Qso) : Qso × List Event :=
  if q.tcp_connected then sendRequest q Request.RQ_P else (q, [])

/-- Embeds `QsoFrn::onConnectTimeout`: the inactivity watchdog fired — force a
disconnect, then run the reconnect policy. -/
def onConnectTimeout (q : Qso) : Qso × List Event :=
  let p1 := disconnect q
  let p2 := reconnect p1.1
  (p2.1, p1.2 ++ p2.2)

/-- Is this event a transport connect attempt? -/
def isConnectAttempt : Event → Bool
  | Event.connectAttempt => true
  | _ => false

/-- Number of transport connect attempts in an event trace. -/
def countConnects (evs : List Event) : Nat :=
  (evs.filter isConnectAttempt).length

/-- A concrete disconnected session with all identity fields configured,
used to instantiate hypothesis-bearing theorems. -/
def qDemo : Qso :=
  { state := State.disconnected
    connect_retry_cnt := 0
    send_buffer := []
    is_sending_voice := false
    is_receiving_voice := false
    keep_alive_enabled := false
    con_timeout_enabled := false
    tcp_connected := false
    opt_server := "server.example.net"
    opt_port := "10024"
    opt_email_address := "op@example.org"
    opt_dyn_password := "pw"
    opt_callsign_and_user := "N0CALL, Operator"
    opt_client_type := "Crosslink"
    opt_band_and_channel := "70cm"
    opt_description := "gateway"
    opt_country := "Nowhere"
    opt_city_city_part := "Sample City"
    opt_net := "Net"
    opt_version := "2014001" }

/-- A concrete logged-in session (connected, both timers armed, not
authorized to transmit, empty buffer). -/
def qLive : Qso :=
  { qDemo with state := State.loggedIn
               tcp_connected := true
               keep_alive_enabled := true
               con_timeout_enabled := true }

/-- C2: for every session state other than `LoggedIn`, `writeSamples`
returns the full submitted count, performs no transport write (empty event
trace), and leaves the session — in particular the fill count of the uplink
buffer — unchanged. -/
theorem writeSamples_not_loggedIn (q : Qso) (samples : List ℚ)
    (h : q.state ≠ State.loggedIn) :
    writeSamples q samples = (q, [], samples.length) := by
  simp [writeSamples, h]

/-- Witness for `writeSamples_not_loggedIn` at a concrete disconnected
session and a two-sample block. -/
theorem writeSamples_not_loggedIn_witness :
    qDemo.state ≠ State.loggedIn ∧
    writeSamples qDemo [1/2, 2] = (qDemo, [], 2) :=
  ⟨by decide, by
    have h := writeSamples_not_loggedIn qDemo [1/2, 2] (by decide)
    simpa using h⟩

/-- C9: `disconnect` is callable from every session state: it sets
`Disconnected`, disarms both timers, and closes the transport only if it
is open; a second `disconnect` changes nothing further (same resulting
state, timer arming and transport status, and no second transport close),
so the operation is idempotent. -/
theorem disconnect_idempotent (q : Qso) :
    (disconnect q).1.state = State.disconnected ∧
    (disconnect q).1.keep_alive_enabled = false ∧
    (disconnect q).1.con_timeout_enabled = false ∧
    (disconnect q).1.tcp_connected = false ∧
    (disconnect q).2 = (if q.tcp_connected then [Event.tcpDisconnect] else []) ∧
    disconnect (disconnect q).1 = ((disconnect q).1, []) := by
  by_cases h : q.tcp_connected <;> simp [disconnect, h]

/-- C10: `squelchOpen false` is a no-op at the session boundary — no
events, no state change; only `squelchOpen true` sends the
"stop transmitting" token (and only while the transport is connected). -/
theorem squelchOpen_false_noop (q : Qso) :
    squelchOpen q false = (q, []) ∧
    squelchOpen q true =
      (q, if q.tcp_connected then [Event.reqWrite Request.RQ_TX0] else []) :=
  ⟨rfl, rfl⟩

/-- C6: while `LoggedIn`, an inbound message tagged as voice payload whose
total length differs from `FRN_AUDIO_PACKET_SIZE + 3` is dropped silently:
no sink-write (or any other) events, and the session state stays
`LoggedIn`.  Only the informational `is_receiving_voice` flag is set (the
code sets it before checking the length). -/
theorem voice_payload_bad_length_dropped (q : Qso) (msg : InMsg)
    (hs : q.state = State.loggedIn)
    (hc : msg.cmd = Response.DT_VOICE_BUFFER)
    (hl : msg.len ≠ FRN_AUDIO_PACKET_SIZE + 3) :
    onDataReceived q msg = ({ q with is_receiving_voice := true }, [], msg.len) ∧
    (onDataReceived q msg).1.state = q.state := by
  have h1 : onDataReceived q msg =
      ({ q with is_receiving_voice := true }, [], msg.len) := by
    simp [onDataReceived, hs, handleResponse, hc, handleAudioData, hl]
  exact ⟨h1, by rw [h1]⟩

/-- Witness for `voice_payload_bad_length_dropped`: a logged-in session
receiving a voice-tagged message one byte short of the valid length. -/
theorem voice_payload_bad_length_dropped_witness :
    qLive.state = State.loggedIn ∧
    (⟨Response.DT_VOICE_BUFFER, FRN_AUDIO_PACKET_SIZE + 2⟩ : InMsg).cmd =
      Response.DT_VOICE_BUFFER ∧
    (⟨Response.DT_VOICE_BUFFER, FRN_AUDIO_PACKET_SIZE + 2⟩ : InMsg).len ≠
      FRN_AUDIO_PACKET_SIZE + 3 ∧
    onDataReceived qLive ⟨Response.DT_VOICE_BUFFER, FRN_AUDIO_PACKET_SIZE + 2⟩ =
      ({ qLive with is_receiving_voice := true }, [], FRN_AUDIO_PACKET_SIZE + 2) :=
  ⟨by decide, rfl, by decide,
   (voice_payload_bad_length_dropped qLive
      ⟨Response.DT_VOICE_BUFFER, FRN_AUDIO_PACKET_SIZE + 2⟩
      (by decide) rfl (by decide)).1⟩

/-- C8: on connect success exactly one composite login message is written,
containing all configured identity fields as tagged segments in the fixed
order version, email, credential, callsign/user, client type, band/channel,
description, country, locality, network name, newline-terminated; any two
subsequent inbound messages (content not examined) advance the state
`LoggingIn → LoggingIn2 → LoggedIn`, and on reaching `LoggedIn` the
keep-alive timer is armed and the initial "receive-ready"/"not
transmitting" token is sent. -/
theorem login_handshake (q : Qso) (m1 m2 : InMsg) :
    onConnected q =
      ({ q with state := State.loggingIn, connect_retry_cnt := 0,
                con_timeout_enabled := true, tcp_connected := true },
       [Event.loginWrite (loginMsg q)]) ∧
    loginMsg q =
      "CT:" ++
      "<VX>" ++ q.opt_version ++ "</VX>" ++
      "<EA>" ++ q.opt_email_address ++ "</EA>" ++
      "<PW>" ++ q.opt_dyn_password ++ "</PW>" ++
      "<ON>" ++ q.opt_callsign_and_user ++ "</ON>" ++
      "<CL>" ++ q.opt_client_type ++ "</CL>" ++
      "<BC>" ++ q.opt_band_and_channel ++ "</BC>" ++
      "<DS>" ++ q.opt_description ++ "</DS>" ++
      "<NN>" ++ q.opt_country ++ "</NN>" ++
      "<CT>" ++ q.opt_city_city_part ++ "</CT>" ++
      "<NT>" ++ q.opt_net ++ "</NT>" ++
      "\n" ∧
    onDataReceived (onConnected q).1 m1 =
      ({ (onConnected q).1 with state := State.loggingIn2 }, [], m1.len) ∧
    onDataReceived (onDataReceived (onConnected q).1 m1).1 m2 =
      ({ (onDataReceived (onConnected q).1 m1).1 with
          state := State.loggedIn, keep_alive_enabled := true },
       [Event.reqWrite Request.RQ_RX0], m2.len) :=
  ⟨rfl, rfl, rfl, rfl⟩

/-- The byte count accumulated by the `sendVoiceData` encode loop equals
`FRAME_COUNT * GSM_FRAME_SIZE` (= `FRN_AUDIO_PACKET_SIZE`). -/
theorem sendVoiceData_nbytes :
    (List.range FRAME_COUNT).foldl (fun n _ => n + GSM_FRAME_SIZE) 0 =
      FRAME_COUNT * GSM_FRAME_SIZE := by decide

/-- Shape of `sendVoiceData` while the transport is connected: one
"start transmitting" token write, then one payload write of
`FRAME_COUNT * GSM_FRAME_SIZE` bytes, and the fill count drops to zero. -/
theorem sendVoiceData_connected (q : Qso) (h : q.tcp_connected = true) :
    sendVoiceData q =
      ({ q with send_buffer := [] },
       [Event.reqWrite Request.RQ_TX1,
        Event.payloadWrite q.send_buffer (FRAME_COUNT * GSM_FRAME_SIZE)]) := by
  simp [sendVoiceData, h, sendVoiceData_nbytes]

/-- The `writeSamples` loop with nothing left to consume returns at once. -/
theorem writeSamplesLoop_nil (q : Qso) (acc : Nat) :
    writeSamplesLoop q [] acc = (q, [], acc) := by
  rw [writeSamplesLoop]
  simp

/-- The `writeSamples` loop on a full buffer without transmit authorization
consumes nothing and breaks out immediately. -/
theorem writeSamplesLoop_full_unauthorized (q : Qso) (rem : List ℚ) (acc : Nat)
    (hfull : q.send_buffer.length = BUFFER_SIZE)
    (hv : q.is_sending_voice = false) :
    writeSamplesLoop q rem acc = (q, [], acc) := by
  obtain ⟨st, cnt, buf, sv, rv, ka, ct, tc,
    o1, o2, o3, o4, o5, o6, o7, o8, o9, o10, o11, o12⟩ := q
  obtain rfl : sv = false := hv
  cases rem with
  | nil => exact writeSamplesLoop_nil _ acc
  | cons y ys =>
      rw [writeSamplesLoop]
      simp [hfull]

/-- C5: `flushSamples` on a logged-in session with a non-empty (partial)
buffer zero-pads the buffer to full capacity and hands exactly that block
to the encoder for a single payload write — unpadded region the submitted
samples, padded region zero — preceded by the "start transmitting" token
the payload path always sends, followed by the "stop transmitting" token;
the transmitting flag is cleared whatever its value was; and in every
session state the trace ends with the flush-completed signal to the
upstream source. -/
theorem flushSamples_nonempty (q : Qso)
    (hs : q.state = State.loggedIn) (h0 : 0 < q.send_buffer.length)
    (hlt : q.send_buffer.length < BUFFER_SIZE) (htcp : q.tcp_connected = true) :
    (flushSamples q =
      ({ q with send_buffer := [], is_sending_voice := false },
       [Event.reqWrite Request.RQ_TX1,
        Event.payloadWrite
          (q.send_buffer ++ List.replicate (BUFFER_SIZE - q.send_buffer.length) 0)
          (FRAME_COUNT * GSM_FRAME_SIZE),
        Event.reqWrite Request.RQ_TX0,
        Event.allFlushed])) ∧
    (∀ q2 : Qso, ∃ evs : List Event,
        (flushSamples q2).2 = evs ++ [Event.allFlushed]) := by
  constructor
  · obtain ⟨st, cnt, buf, sv, rv, ka, ct, tc,
      o1, o2, o3, o4, o5, o6, o7, o8, o9, o10, o11, o12⟩ := q
    obtain rfl : st = State.loggedIn := hs
    obtain rfl : tc = true := htcp
    simp [flushSamples, sendVoiceData, sendRequest, sendVoiceData_nbytes, h0]
  · intro q2
    rw [flushSamples]
    by_cases h : q2.state = State.loggedIn ∧ 0 < q2.send_buffer.length
    · rw [if_pos h]
      exact ⟨_, rfl⟩
    · rw [if_neg h]
      exact ⟨[], rfl⟩

/-- Witness for `flushSamples_nonempty`: a logged-in connected session
holding one buffered sample. -/
theorem flushSamples_nonempty_witness :
    ({ qLive with send_buffer := [5] } : Qso).state = State.loggedIn ∧
    0 < ({ qLive with send_buffer := [5] } : Qso).send_buffer.length ∧
    ({ qLive with send_buffer := [5] } : Qso).send_buffer.length < BUFFER_SIZE ∧
    flushSamples { qLive with send_buffer := [5] } =
      ({ qLive with send_buffer := [], is_sending_voice := false },
       [Event.reqWrite Request.RQ_TX1,
        Event.payloadWrite ([5] ++ List.replicate (BUFFER_SIZE - 1) 0)
          (FRAME_COUNT * GSM_FRAME_SIZE),
        Event.reqWrite Request.RQ_TX0,
        Event.allFlushed]) :=
  ⟨rfl, by decide, by decide,
   (flushSamples_nonempty { qLive with send_buffer := [5] }
      rfl (by decide) (by decide) rfl).1⟩

/-- C3: while logged in, authorized to transmit and holding an empty
buffer, submitting exactly `BUFFER_SIZE` samples produces exactly one
"start transmitting" token write followed by exactly one separate payload
write of `FRAME_COUNT * GSM_FRAME_SIZE` bytes (the converted samples fed
to the encoder), accepts all samples, and leaves the fill count at 0. -/
theorem writeSamples_full_block_authorized (q : Qso) (samples : List ℚ)
    (hs : q.state = State.loggedIn) (hv : q.is_sending_voice = true)
    (hb : q.send_buffer = []) (htcp : q.tcp_connected = true)
    (hn : samples.length = BUFFER_SIZE) :
    writeSamples q samples =
      ({ q with send_buffer := [] },
       [Event.reqWrite Request.RQ_TX1,
        Event.payloadWrite (samples.map sampleToPcm)
          (FRAME_COUNT * GSM_FRAME_SIZE)],
       BUFFER_SIZE) := by
  have hB : 0 < BUFFER_SIZE := by decide
  have hne : samples ≠ [] := by
    intro he
    rw [he] at hn
    simp at hn
    omega
  have htake : samples.take BUFFER_SIZE = samples :=
    List.take_of_length_le (le_of_eq hn)
  have hdrop : samples.drop BUFFER_SIZE = [] :=
    List.drop_eq_nil_of_le (le_of_eq hn)
  obtain ⟨st, cnt, buf, sv, rv, ka, ct, tc,
    o1, o2, o3, o4, o5, o6, o7, o8, o9, o10, o11, o12⟩ := q
  obtain rfl : st = State.loggedIn := hs
  obtain rfl : sv = true := hv
  obtain rfl : buf = [] := hb
  obtain rfl : tc = true := htcp
  rw [writeSamples, if_neg (by simp), writeSamplesLoop, if_neg hne]
  simp [hn, htake, hdrop, sendVoiceData, sendVoiceData_nbytes,
    writeSamplesLoop_nil]

/-- Witness for `writeSamples_full_block_authorized`: a logged-in
authorized session consuming one full silence block. -/
theorem writeSamples_full_block_authorized_witness :
    (List.replicate BUFFER_SIZE (0 : ℚ)).length = BUFFER_SIZE ∧
    writeSamples { qLive with is_sending_voice := true }
        (List.replicate BUFFER_SIZE (0 : ℚ)) =
      ({ qLive with is_sending_voice := true, send_buffer := [] },
       [Event.reqWrite Request.RQ_TX1,
        Event.payloadWrite ((List.replicate BUFFER_SIZE (0 : ℚ)).map sampleToPcm)
          (FRAME_COUNT * GSM_FRAME_SIZE)],
       BUFFER_SIZE) :=
  ⟨by simp,
   writeSamples_full_block_authorized { qLive with is_sending_voice := true }
     (List.replicate BUFFER_SIZE (0 : ℚ)) rfl rfl rfl rfl (by simp)⟩

/-- C4: while logged in and not authorized to transmit, submitting more
samples than the remaining capacity accepts exactly the remaining capacity
(strictly fewer than requested), performs no transport write, leaves the
buffer exactly full with the previous contents preserved as a prefix (not
overwritten), and every further submission while still unauthorized
accepts 0 samples and changes nothing. -/
theorem writeSamples_unauthorized_overflow (q : Qso) (samples more : List ℚ)
    (hs : q.state = State.loggedIn) (hv : q.is_sending_voice = false)
    (hle : q.send_buffer.length ≤ BUFFER_SIZE)
    (hover : BUFFER_SIZE - q.send_buffer.length < samples.length) :
    (writeSamples q samples =
      ({ q with send_buffer := q.send_buffer ++
           (samples.take (BUFFER_SIZE - q.send_buffer.length)).map sampleToPcm },
       [], BUFFER_SIZE - q.send_buffer.length)) ∧
    BUFFER_SIZE - q.send_buffer.length < samples.length ∧
    (writeSamples q samples).1.send_buffer.length = BUFFER_SIZE ∧
    (writeSamples q samples).1.send_buffer.take q.send_buffer.length
      = q.send_buffer ∧
    writeSamples (writeSamples q samples).1 more =
      ((writeSamples q samples).1, [], 0) := by
  have hne : samples ≠ [] := by
    intro he
    rw [he] at hover
    simp at hover
  have hmin : min (BUFFER_SIZE - q.send_buffer.length) samples.length
      = BUFFER_SIZE - q.send_buffer.length := min_eq_left (le_of_lt hover)
  have hlen1 : (q.send_buffer ++
      (samples.take (BUFFER_SIZE - q.send_buffer.length)).map
        sampleToPcm).length = BUFFER_SIZE := by
    simp only [List.length_append, List.length_map, List.length_take]
    omega
  have h1 : writeSamples q samples =
      ({ q with send_buffer := q.send_buffer ++
           (samples.take (BUFFER_SIZE - q.send_buffer.length)).map sampleToPcm },
       [], BUFFER_SIZE - q.send_buffer.length) := by
    have hlen2 : q.send_buffer.length + (BUFFER_SIZE - q.send_buffer.length)
        = BUFFER_SIZE := by omega
    rw [writeSamples, if_neg (by simp [hs]), writeSamplesLoop, if_neg hne]
    simp [hmin, hlen2, hv]
  refine ⟨h1, hover, ?_, ?_, ?_⟩
  · rw [h1]
    exact hlen1
  · rw [h1]
    exact List.take_left q.send_buffer _
  · rw [h1, writeSamples, if_neg (by simp [hs])]
    exact writeSamplesLoop_full_unauthorized _ more 0 hlen1 hv

/-- Witness for `writeSamples_unauthorized_overflow`: a logged-in
unauthorized session whose buffer is already full, offered one more
sample. -/
theorem writeSamples_unauthorized_overflow_witness :
    ({ qLive with send_buffer := List.replicate BUFFER_SIZE 7 } : Qso).state
        = State.loggedIn ∧
    ({ qLive with send_buffer := List.replicate BUFFER_SIZE 7 } :
        Qso).send_buffer.length ≤ BUFFER_SIZE ∧
    BUFFER_SIZE - ({ qLive with send_buffer := List.replicate BUFFER_SIZE 7 } :
        Qso).send_buffer.length < ([0] : List ℚ).length ∧
    (writeSamples { qLive with send_buffer := List.replicate BUFFER_SIZE 7 }
        [0]).2.2 <
      ([0] : List ℚ).length :=
  ⟨rfl, by simp, by simp, by
    have h := writeSamples_unauthorized_overflow
      { qLive with send_buffer := List.replicate BUFFER_SIZE 7 } [0] [2]
      rfl rfl (by simp) (by simp)
    rw [h.1]
    simp⟩

/-- Floor of the constant full-scale factor. -/
theorem floor_fullScale : ⌊(32767 : ℚ)⌋ = 32767 := by
  rw [show (32767 : ℚ) = ((32767 : ℤ) : ℚ) by norm_num, Int.floor_intCast]

/-- Ceiling of the negated constant full-scale factor. -/
theorem ceil_neg_fullScale : ⌈(-32767 : ℚ)⌉ = -32767 := by
  rw [show (-32767 : ℚ) = ((-32767 : ℤ) : ℚ) by norm_num, Int.ceil_intCast]

/-- C7: the float→int16 conversion performed by `writeSamples` while
logged in hard-clamps: samples ≥ 1 map to the positive full-scale value
32767, samples ≤ −1 map to the negative full-scale value −32767 (the code
clamps symmetrically to ±32767, not to the int16 minimum −32768), samples
strictly between −1 and 1 map by the linear full-scale factor 32767 with
truncation toward zero (within 1 of the exact product and no larger in
magnitude), the result always fits in a 16-bit signed integer, and the
converted value is exactly what `writeSamples` appends to the uplink
buffer. -/
theorem writeSamples_conversion_clamps (x : ℚ) :
    (1 ≤ x → sampleToPcm x = 32767) ∧
    (x ≤ -1 → sampleToPcm x = -32767) ∧
    (-1 < x → x < 1 →
      |(sampleToPcm x : ℚ) - 32767 * x| < 1 ∧
      |(sampleToPcm x : ℚ)| ≤ |32767 * x|) ∧
    (-32767 ≤ sampleToPcm x ∧ sampleToPcm x ≤ 32767) ∧
    (∀ q : Qso, q.state = State.loggedIn →
      q.send_buffer.length + 1 < BUFFER_SIZE →
      writeSamples q [x]
        = ({ q with send_buffer := q.send_buffer ++ [sampleToPcm x] },
           [], 1)) := by
  refine ⟨?_, ?_, ?_, ?_, ?_⟩
  · intro hx
    unfold sampleToPcm
    by_cases h1 : 1 < x
    · simp [h1]
    · have hx1 : x = 1 := le_antisymm (not_lt.mp h1) hx
      subst hx1
      norm_num [floor_fullScale]
  · intro hx
    unfold sampleToPcm
    have h1 : ¬ 1 < x := by linarith
    by_cases h2 : x < -1
    · simp [h1, h2]
    · have hx1 : x = -1 := le_antisymm hx (not_lt.mp h2)
      subst hx1
      norm_num [ceil_neg_fullScale]
  · intro hm1 hm2
    unfold sampleToPcm
    have h1 : ¬ 1 < x := by linarith
    have h2 : ¬ x < -1 := by linarith
    rw [if_neg h1, if_neg h2]
    by_cases h0 : 0 ≤ (32767 : ℚ) * x
    · rw [if_pos h0]
      refine ⟨?_, ?_⟩
      · rw [abs_lt]
        constructor
        · linarith [Int.lt_floor_add_one ((32767 : ℚ) * x)]
        · linarith [Int.floor_le ((32767 : ℚ) * x)]
      · have hf0 : (0 : ℚ) ≤ (⌊(32767 : ℚ) * x⌋ : ℚ) := by
          exact_mod_cast Int.floor_nonneg.mpr h0
        rw [abs_of_nonneg hf0, abs_of_nonneg h0]
        exact Int.floor_le ((32767 : ℚ) * x)
    · rw [if_neg h0]
      push_neg at h0
      refine ⟨?_, ?_⟩
      · rw [abs_lt]
        constructor
        · linarith [Int.le_ceil ((32767 : ℚ) * x)]
        · linarith [Int.ceil_lt_add_one ((32767 : ℚ) * x)]
      · have hc0 : (⌈(32767 : ℚ) * x⌉ : ℚ) ≤ 0 := by
          have h3 : ⌈(32767 : ℚ) * x⌉ ≤ (0 : ℤ) :=
            Int.ceil_le.mpr (by exact_mod_cast le_of_lt h0)
          exact_mod_cast h3
        rw [abs_of_nonpos hc0, abs_of_nonpos (le_of_lt h0)]
        have := Int.le_ceil ((32767 : ℚ) * x)
        linarith
  · unfold sampleToPcm
    by_cases h1 : 1 < x
    · rw [if_pos h1]
      exact ⟨by norm_num, le_refl _⟩
    · rw [if_neg h1]
      by_cases h2 : x < -1
      · rw [if_pos h2]
        exact ⟨le_refl _, by norm_num⟩
      · rw [if_neg h2]
        have hx1 : x ≤ 1 := not_lt.mp h1
        have hx2 : -1 ≤ x := not_lt.mp h2
        have hyle : (32767 : ℚ) * x ≤ 32767 := by linarith
        have hyge : (-32767 : ℚ) ≤ 32767 * x := by linarith
        by_cases h0 : 0 ≤ (32767 : ℚ) * x
        · rw [if_pos h0]
          constructor
          · have h3 : (0 : ℤ) ≤ ⌊(32767 : ℚ) * x⌋ := Int.floor_nonneg.mpr h0
            omega
          · have h3 := Int.floor_le_floor hyle
            rw [floor_fullScale] at h3
            exact h3
        · rw [if_neg h0]
          push_neg at h0
          constructor
          · have h3 := Int.ceil_le_ceil hyge
            rw [ceil_neg_fullScale] at h3
            exact h3
          · have h3 : ⌈(32767 : ℚ) * x⌉ ≤ (0 : ℤ) :=
              Int.ceil_le.mpr (by exact_mod_cast le_of_lt h0)
            omega
  · intro q hsq hlen
    obtain ⟨st, cnt, buf, sv, rv, ka, ct, tc,
      o1, o2, o3, o4, o5, o6, o7, o8, o9, o10, o11, o12⟩ := q
    obtain rfl : st = State.loggedIn := hsq
    have hlen2 : buf.length + 1 < BUFFER_SIZE := hlen
    have hmin : min (BUFFER_SIZE - buf.length) 1 = 1 := by omega
    have hne2 : ¬ (buf.length + 1 = BUFFER_SIZE) := by omega
    have hsub : ¬ (BUFFER_SIZE - buf.length = 0) := by omega
    rw [writeSamples, if_neg (by simp), writeSamplesLoop,
        if_neg (List.cons_ne_nil x [])]
    simp [hmin, hne2, hsub, writeSamplesLoop_nil]

/-- Witness for `writeSamples_conversion_clamps`: an over-range sample is
clamped to the positive full-scale value, and a logged-in session with an
empty buffer appends exactly the converted sample. -/
theorem writeSamples_conversion_clamps_witness :
    ((1 : ℚ) ≤ 3/2 ∧ sampleToPcm (3/2) = 32767) ∧
    (qLive.state = State.loggedIn ∧
     qLive.send_buffer.length + 1 < BUFFER_SIZE ∧
     writeSamples qLive [3/2]
       = ({ qLive with send_buffer := [sampleToPcm (3/2)] }, [], 1)) :=
  ⟨⟨by norm_num, (writeSamples_conversion_clamps (3/2)).1 (by norm_num)⟩,
   rfl, by decide,
   (writeSamples_conversion_clamps (3/2)).2.2.2.2 qLive rfl (by decide)⟩

/-- A transient disconnect reason (remote-initiated or system error) makes
`onDisconnected` run the reconnect policy on the torn-down session. -/
theorem onDisconnected_transient (q : Qso) (r : DisconnectReason)
    (h : isTransient r = true) :
    onDisconnected q r =
      reconnect { q with state := State.disconnected,
                         keep_alive_enabled := false,
                         con_timeout_enabled := false,
                         tcp_connected := false } := by
  cases r <;> simp_all [isTransient, onDisconnected]

/-- Connect-attempt counting distributes over trace concatenation. -/
theorem countConnects_append (a b : List Event) :
    countConnects (a ++ b) = countConnects a + countConnects b := by
  simp [countConnects, List.filter_append]

/-- A single transport connect attempt counts as one. -/
theorem countConnects_single : countConnects [Event.connectAttempt] = 1 := by
  decide

/-- Failure counter, connect-attempt count and final state of a run of
consecutive transient disconnects, for an arbitrary starting counter:
every disconnect whose pre-increment counter is below the ceiling issues
one connect attempt, and the state after the run is `Connecting` while the
counter has not passed the ceiling and terminal `Error` afterwards. -/
theorem runDisconnects_transient_spec (rs : List DisconnectReason) :
    ∀ q : Qso, (∀ r ∈ rs, isTransient r = true) →
      (runDisconnects rs q).1.connect_retry_cnt
          = q.connect_retry_cnt + rs.length ∧
      countConnects (runDisconnects rs q).2 =
        min (q.connect_retry_cnt + rs.length) MAX_CONNECT_RETRY_CNT
          - min q.connect_retry_cnt MAX_CONNECT_RETRY_CNT ∧
      (0 < rs.length →
        (runDisconnects rs q).1.state =
          if q.connect_retry_cnt + rs.length ≤ MAX_CONNECT_RETRY_CNT
          then State.connecting else State.error) := by
  induction rs with
  | nil =>
      intro q h
      refine ⟨by simp [runDisconnects], by simp [runDisconnects, countConnects],
        ?_⟩
      intro hlen
      simp at hlen
  | cons r rs ih =>
      intro q h
      have hr : isTransient r = true := h r (List.mem_cons_self r rs)
      have hrs : ∀ r2 ∈ rs, isTransient r2 = true :=
        fun r2 hm => h r2 (List.mem_cons_of_mem r hm)
      simp only [runDisconnects]
      rw [onDisconnected_transient q r hr, reconnect]
      by_cases hc : q.connect_retry_cnt < MAX_CONNECT_RETRY_CNT
      · rw [if_pos hc]
        simp only [connect]
        obtain ⟨ih1, ih2, ih3⟩ := ih
          { q with state := State.connecting,
                   connect_retry_cnt := q.connect_retry_cnt + 1,
                   keep_alive_enabled := false,
                   con_timeout_enabled := false,
                   tcp_connected := false } hrs
        refine ⟨?_, ?_, ?_⟩
        · rw [ih1]
          simp only [List.length_cons]
          omega
        · rw [countConnects_append, countConnects_single, ih2]
          simp only [List.length_cons]
          omega
        · intro _
          cases rs with
          | nil =>
              simp only [runDisconnects, List.length_cons, List.length_nil]
              rw [if_pos (by omega)]
          | cons r2 rs2 =>
              rw [ih3 (by simp)]
              simp only [List.length_cons]
              split_ifs <;> first | rfl | omega
      · rw [if_neg hc]
        obtain ⟨ih1, ih2, ih3⟩ := ih
          { q with state := State.error,
                   connect_retry_cnt := q.connect_retry_cnt + 1,
                   keep_alive_enabled := false,
                   con_timeout_enabled := false,
                   tcp_connected := false } hrs
        refine ⟨?_, ?_, ?_⟩
        · rw [ih1]
          simp only [List.length_cons]
          omega
        · rw [List.nil_append, ih2]
          simp only [List.length_cons]
          omega
        · intro _
          cases rs with
          | nil =>
              simp only [runDisconnects, List.length_cons, List.length_nil]
              rw [if_neg (by omega)]
          | cons r2 rs2 =>
              rw [ih3 (by simp)]
              simp only [List.length_cons]
              split_ifs <;> first | rfl | omega

/-- C1 (amended): in a run of `n ≥ 1` consecutive transient disconnects
starting from a zero failure counter, each of the first
`MAX_CONNECT_RETRY_CNT` disconnects — including the `K`-th itself — is
followed by exactly one connect attempt (the trace holds `min n K`
attempts), the state after at most `K` disconnects is `Connecting`, and
only from the `(K+1)`-th consecutive transient disconnect on is the state
machine in terminal `Error`, issuing no further connect attempts (the
attempt count stays at `K`). -/
theorem reconnect_policy_bounded (rs : List DisconnectReason) (q : Qso)
    (hc : q.connect_retry_cnt = 0)
    (ht : ∀ r ∈ rs, isTransient r = true)
    (hn : 0 < rs.length) :
    countConnects (runDisconnects rs q).2
        = min rs.length MAX_CONNECT_RETRY_CNT ∧
    (runDisconnects rs q).1.state =
      (if rs.length ≤ MAX_CONNECT_RETRY_CNT
       then State.connecting else State.error) := by
  obtain ⟨h1, h2, h3⟩ := runDisconnects_transient_spec rs q ht
  rw [hc] at h2 h3
  refine ⟨?_, ?_⟩
  · rw [h2]
    omega
  · rw [h3 hn]
    simp only [Nat.zero_add]

/-- Witness for `reconnect_policy_bounded`: six consecutive
remote-initiated disconnects from a fresh logged-in session. -/
theorem reconnect_policy_bounded_witness :
    qLive.connect_retry_cnt = 0 ∧
    (∀ r ∈ List.replicate 6 DisconnectReason.DR_REMOTE_DISCONNECTED,
        isTransient r = true) ∧
    0 < (List.replicate 6 DisconnectReason.DR_REMOTE_DISCONNECTED).length ∧
    (countConnects (runDisconnects
          (List.replicate 6 DisconnectReason.DR_REMOTE_DISCONNECTED) qLive).2
        = min (List.replicate 6
            DisconnectReason.DR_REMOTE_DISCONNECTED).length
            MAX_CONNECT_RETRY_CNT ∧
     (runDisconnects (List.replicate 6
          DisconnectReason.DR_REMOTE_DISCONNECTED) qLive).1.state =
       (if (List.replicate 6
              DisconnectReason.DR_REMOTE_DISCONNECTED).length
            ≤ MAX_CONNECT_RETRY_CNT
        then State.connecting else State.error)) :=
  ⟨rfl, by decide, by decide,
   reconnect_policy_bounded
     (List.replicate 6 DisconnectReason.DR_REMOTE_DISCONNECTED) qLive
     rfl (by decide) (by decide)⟩

/-- C1 counterexample: after exactly `MAX_CONNECT_RETRY_CNT` (= 5)
consecutive transient disconnects from a freshly connected session, the
state machine has not reached `Error` — it is mid-retry in `Connecting` —
and the 5th disconnect itself still issued a connect attempt (5 in
total); `Error` is entered only on the (K+1)-th consecutive transient
disconnect.  This refutes the claim that after exactly K consecutive
transient disconnects the machine is in `Error` with no connect attempt
for the K-th. -/
theorem reconnect_policy_counterexample :
    (runDisconnects (List.replicate MAX_CONNECT_RETRY_CNT
        DisconnectReason.DR_REMOTE_DISCONNECTED) qLive).1.state
      ≠ State.error ∧
    (runDisconnects (List.replicate MAX_CONNECT_RETRY_CNT
        DisconnectReason.DR_REMOTE_DISCONNECTED) qLive).1.state
      = State.connecting ∧
    countConnects (runDisconnects (List.replicate MAX_CONNECT_RETRY_CNT
        DisconnectReason.DR_REMOTE_DISCONNECTED) qLive).2
      = MAX_CONNECT_RETRY_CNT := by
  decide

end QsoFrn
